import Mathlib

/-!
Verification of the index-mapping and extraction subsystem of the chan-ui
visualization service (src/chan_viz/data_service.py and
src/chan_viz/chart_render.py), shallowly embedded in Lean.

Modelling conventions: Python ints are Int (or Nat where the source value
is a count), Python floats carrying prices are ℚ, dicts returned to the
renderer are structures, and a Python function that can raise is an
Except-valued function whose error value holds the exception message.
Upstream objects produced by the external analytics engine are represented
by the values their accessors return, since those accessors are all the
extraction code reads.
-/

attribute [local semireducible] Rat.add Rat.sub Rat.mul Rat.inv

namespace ChanViz

/-! ### Definitions: raw unit index mapper

`StreamlitDataService._build_klu_index_mapping` walks the merged-candle
list keeping a running counter `total_klu_count`; for each merged candle
(aggregate) it records the pair
`(start_klu_idx, start_klu_idx + len(klc.lst) - 1)` and advances the
counter by `len(klc.lst)`.  The aggregate is represented here only by its
size `len(klc.lst)`, which is all the mapper reads.  The subtraction is
over ℤ exactly as in Python, so an empty aggregate yields the pair
`(c, c - 1)`. -/

def buildAux : Nat → List Nat → List (Int × Int)
  | _, [] => []
  | c, n :: rest => ((c : Int), (c : Int) + (n : Int) - 1) :: buildAux (c + n) rest

/-- Embedding of `_build_klu_index_mapping`: the dict `{klc_idx : (start, end)}`
is represented as the list of range pairs in klc ordinal order. -/
def build_klu_index_mapping (sizes : List Nat) : List (Int × Int) :=
  buildAux 0 sizes

/-- Total raw-unit count: the final value of `total_klu_count`. -/
def totalRawUnits (sizes : List Nat) : Nat := sizes.sum

/-- Membership of a global raw-unit index in an inclusive range pair. -/
def inRange (i : Int) (r : Int × Int) : Bool := decide (r.1 ≤ i ∧ i ≤ r.2)

/-! ### Definitions: parameter validation and level resolution
(`StreamlitDataService.load_chan_data`, data_service.py lines 270-328) -/

/-- Python `code.endswith(suffix)`. -/
def str_ends_with (s suffix : String) : Bool := suffix.data.isSuffixOf s.data

/-- Python slicing `s[:-n]` for a string of length at least `n`. -/
def str_drop_right (s : String) (n : Nat) : String := ⟨s.data.take (s.data.length - n)⟩

/-- The stock-code conversion at the top of `load_chan_data`: `.SZ`/`.SH`
UI codes are rewritten to BaoStock `sz.`/`sh.` codes, anything else passes
through. -/
def to_baostock (code : String) : String :=
  if str_ends_with code ".SZ" then "sz." ++ str_drop_right code 3
  else if str_ends_with code ".SH" then "sh." ++ str_drop_right code 3
  else code

/-- Python truthiness defaulting `if not s: s = d` where `s` may be `None`
or an empty string. -/
def or_default (s : Option String) (d : String) : String :=
  match s with
  | none => d
  | some v => if v = "" then d else v

/-- The `KL_TYPE` enumeration imported from the engine, restricted to the
constructors `load_chan_data` mentions. -/
inductive KL_TYPE
  | K_DAY
  | K_60M
  | K_30M
  | K_15M
  | K_5M
  | K_1M
deriving DecidableEq

/-- Embedding of `level_mapping.get(level, KL_TYPE.K_DAY)` over the literal
dict built in `load_chan_data`. -/
def level_mapping_get (level : String) : KL_TYPE :=
  if level = "K_DAY" then KL_TYPE.K_DAY
  else if level = "K_60M" then KL_TYPE.K_60M
  else if level = "K_30M" then KL_TYPE.K_30M
  else if level = "K_15M" then KL_TYPE.K_15M
  else if level = "K_5M" then KL_TYPE.K_5M
  else if level = "K_1M" then KL_TYPE.K_1M
  else KL_TYPE.K_DAY

/-- The six keys of the level dict. -/
def known_levels : List String :=
  ["K_DAY", "K_60M", "K_30M", "K_15M", "K_5M", "K_1M"]

/-- Embedding of the validation and resolution prefix of
`StreamlitDataService.load_chan_data` (lines 273-309): the `ValueError`
raised when `not code or not level`, the code conversion, the date
defaulting (`today` stands for `datetime.now().strftime`), and the level
lookup.  On success it returns the resolved
`(baostock_code, kl_type, start_date, end_date)`. -/
def load_chan_data_resolve (code level : String)
    (start_date end_date : Option String) (today : String) :
    Except String (String × KL_TYPE × String × String) :=
  if code = "" ∨ level = "" then Except.error "参数缺失"
  else Except.ok (to_baostock code, level_mapping_get level,
    or_default start_date "2023-01-01", or_default end_date today)

/-! ### Definitions: stroke, segment and zone extractors

`_extract_bi_data`, `_extract_segment_data` and `_extract_zs_data` (the
`StreamlitDataService` methods, lines 392-445 and 411-426) each map over
the upstream list and build one output record per object.  An upstream
stroke is the tuple of values its accessors return: `get_begin_klu().idx`,
`get_end_klu().idx`, `get_begin_val()`, `get_end_val()`, `is_up()`,
`type`, `is_sure`; a segment the same with its raw `dir` value compared
against 1; a zone carries `begin.idx`, `end.idx`, `low`, `high`, `type`,
`is_sure`.  All three methods also receive `klu_global_index_map`, which
none of them reads. -/

structure CBi where
  begin_klu_idx : Int
  end_klu_idx : Int
  begin_val : ℚ
  end_val : ℚ
  is_up : Bool
  type : String
  is_sure : Bool
deriving DecidableEq

structure BiRec where
  x : Int × Int
  y : ℚ × ℚ
  type : String
  direction : String
  is_sure : Bool
deriving DecidableEq

/-- Embedding of `StreamlitDataService._extract_bi_data`. -/
def extract_bi_data (bi_list : List CBi)
    (klu_global_index_map : List (Int × Int)) : List BiRec :=
  bi_list.map fun bi =>
    { x := (bi.begin_klu_idx, bi.end_klu_idx)
      y := (bi.begin_val, bi.end_val)
      type := bi.type
      direction := if bi.is_up then "up" else "down"
      is_sure := bi.is_sure }

structure CSeg where
  begin_klu_idx : Int
  end_klu_idx : Int
  begin_val : ℚ
  end_val : ℚ
  dir : Int
  type : String
  is_sure : Bool
deriving DecidableEq

structure SegRec where
  x : Int × Int
  y : ℚ × ℚ
  type : String
  direction : String
  is_sure : Bool
deriving DecidableEq

/-- Embedding of `StreamlitDataService._extract_segment_data`. -/
def extract_segment_data (seg_list : List CSeg)
    (klu_global_index_map : List (Int × Int)) : List SegRec :=
  seg_list.map fun seg =>
    { x := (seg.begin_klu_idx, seg.end_klu_idx)
      y := (seg.begin_val, seg.end_val)
      type := seg.type
      direction := if seg.dir = (1 : Int) then "up" else "down"
      is_sure := seg.is_sure }

structure CZs where
  begin_idx : Int
  end_idx : Int
  low : ℚ
  high : ℚ
  type : String
  is_sure : Bool
deriving DecidableEq

structure ZsRec where
  x : Int × Int
  y : ℚ × ℚ
  type : String
  is_sure : Bool
deriving DecidableEq

/-- Embedding of `StreamlitDataService._extract_zs_data`. -/
def extract_zs_data (zs_list : List CZs)
    (klu_global_index_map : List (Int × Int)) : List ZsRec :=
  zs_list.map fun zs =>
    { x := (zs.begin_idx, zs.end_idx)
      y := (zs.low, zs.high)
      type := zs.type
      is_sure := zs.is_sure }

/-! ### Definitions: signal point extractor
(`StreamlitDataService._extract_bsp_data`, lines 447-466) -/

structure CBsp where
  klu_idx : Int
  price : ℚ
  is_buy : Bool
  type : String
deriving DecidableEq

structure BspRec where
  kl_idx : Int
  price : ℚ
  is_buy : Bool
  type : String
deriving DecidableEq

/-- The dict appended for one signal point. -/
def bsp_record (b : CBsp) : BspRec :=
  { kl_idx := b.klu_idx, price := b.price, is_buy := b.is_buy, type := b.type }

/-- The `for` loop inside the `try` block: each element of the resolved
list either converts cleanly (`Except.ok`) or raises while being read
(`Except.error`); at the first raise the `except` clause is entered and
the records accumulated so far are returned. -/
def bsp_loop : List (Except String CBsp) → List BspRec
  | [] => []
  | Except.error _ :: _ => []
  | Except.ok b :: rest => bsp_record b :: bsp_loop rest

/-- Embedding of `_extract_bsp_data`: `getSortedBspList()` itself may raise
(outer `Except`), and each iteration may raise (inner `Except`); the broad
`except` around the whole body swallows the exception, prints, and returns
whatever `bsp_data` holds at that point. -/
def extract_bsp_data (bsp_list : Except String (List (Except String CBsp))) :
    List BspRec :=
  match bsp_list with
  | Except.error _ => []
  | Except.ok items => bsp_loop items

/-! ### Definitions: dataset and the engine-failure path of
`StreamlitDataService.load_chan_data` (lines 314-328) -/

structure KlineData where
  dates : List String
  open_price : List ℚ
  close_price : List ℚ
  low : List ℚ
  high : List ℚ
  volume : List ℚ
deriving DecidableEq

structure Dataset where
  kline : KlineData
  bi : List BiRec
  segment : List SegRec
  central_zone : List ZsRec
  buy_sell_points : List BspRec
deriving DecidableEq

/-- Embedding of the `try`/`except` around the engine call in the method
`load_chan_data`: `outcome` is what the `CChan(...)` construction followed
by `_convert_to_visualization_data` produces (a dataset, or the message of
the exception it raised); on an exception the method prints and raises a
`RuntimeError` wrapping the original message. -/
def load_chan_data_fetch (outcome : Except String Dataset) :
    Except String Dataset :=
  match outcome with
  | Except.ok d => Except.ok d
  | Except.error e =>
      Except.error ("无法获取股票数据，请检查股票代码和网络连接: " ++ e)

/-! ### Definitions: signal price offset
(`PlotlyChartRenderer._calculate_price_offset`, chart_render.py lines
292-304, and the marker placement `bsp.price + price_offset` at line 212) -/

/-- Embedding of `_calculate_price_offset`.  Python `min`/`max` raise on an
empty sequence, hence the `Option`. -/
def calculate_price_offset (kline_low kline_high : List ℚ)
    (is_buy : Bool) : Option ℚ :=
  match kline_low.min?, kline_high.max? with
  | some min_price, some max_price =>
      let price_range := max_price - min_price
      let offset := price_range * (5 / 100)
      some (if is_buy then -offset else offset)
  | _, _ => none

/-- The displayed y-coordinate of a signal marker: `bsp.price + price_offset`. -/
def bsp_display_price (price price_offset : ℚ) : ℚ := price + price_offset

/-! ### Definitions: fallback generator
(module-level `_convert_to_visualization_data` and `_get_mock_data`,
data_service.py lines 75-88 and 212-258) -/

/-- The ambient state a run of the mock generator reads: the
`datetime.now()`-derived date strings for offsets 0..14 (newest first, as
built before `reverse()`), and the successive values returned by the calls
to `random.uniform`. -/
structure World where
  dates : List String
  uniform : Nat → ℚ

/-- Python `round(x, 2)`: round to a multiple of 1/100, ties to even
(banker rounding).  `Rat.floor` is the mathematical floor. -/
def round2 (q : ℚ) : ℚ :=
  let y := q * 100
  let f : Int := Rat.floor y
  if y - (f : ℚ) < 1 / 2 then (f : ℚ) / 100
  else if (1 : ℚ) / 2 < y - (f : ℚ) then ((f : ℚ) + 1) / 100
  else (if f % 2 = 0 then (f : ℚ) else (f : ℚ) + 1) / 100

/-- The candle loop of `_get_mock_data`: 15 iterations, each drawing four
uniform values, appending the rounded open/close/low/high and carrying the
unrounded close forward as `base_price`. -/
def mock_candles (u : Nat → ℚ) : Nat → Nat → ℚ → List (ℚ × ℚ × ℚ × ℚ)
  | _, 0, _ => []
  | i, Nat.succ n, base_price =>
      let open_p := base_price + u (4 * i)
      let close_p := open_p + u (4 * i + 1)
      let high_p := max open_p close_p + u (4 * i + 2)
      let low_p := min open_p close_p - u (4 * i + 3)
      (round2 open_p, round2 close_p, round2 low_p, round2 high_p)
        :: mock_candles u (i + 1) n close_p

/-- The mock kline dict (it has no volume key). -/
structure MockKline where
  dates : List String
  open_price : List ℚ
  close_price : List ℚ
  low : List ℚ
  high : List ℚ
deriving DecidableEq

structure MockBi where
  x : Int × Int
  y : ℚ × ℚ
  type : String
  direction : String
deriving DecidableEq

structure MockZs where
  x : Int × Int
  y : ℚ × ℚ
  type : String
deriving DecidableEq

structure MockSeg where
  x : Int × Int
  y : ℚ × ℚ
  type : String
deriving DecidableEq

structure MockBsp where
  kl_idx : Int
  price : ℚ
  is_buy : Bool
  type : String
deriving DecidableEq

structure MockDataset where
  kline : MockKline
  bi : List MockBi
  central_zone : List MockZs
  segment : List MockSeg
  buy_sell_points : List MockBsp
deriving DecidableEq

/-- Embedding of `_get_mock_data`: the candle lists come from the random
stream, the dates from the current time (reversed into chronological
order), and the overlay lists are fixed literals. -/
def get_mock_data (w : World) : MockDataset :=
  let candles := mock_candles w.uniform 0 15 100
  { kline :=
      { dates := w.dates.reverse
        open_price := candles.map fun c => c.1
        close_price := candles.map fun c => c.2.1
        low := candles.map fun c => c.2.2.1
        high := candles.map fun c => c.2.2.2 }
    bi :=
      [ { x := (0, 3), y := (100, 102), type := "上升笔", direction := "up" }
      , { x := (3, 7), y := (102, 98), type := "下降笔", direction := "down" }
      , { x := (7, 12), y := (98, 101), type := "上升笔", direction := "up" } ]
    central_zone := [ { x := (4, 8), y := (99, 101), type := "中枢" } ]
    segment := [ { x := (0, 12), y := (100, 101), type := "线段" } ]
    buy_sell_points :=
      [ { kl_idx := 12, price := 101, is_buy := true, type := "买点" }
      , { kl_idx := 14, price := 201 / 2, is_buy := false, type := "卖点" } ] }

/-- The two possible results of the module-level
`_convert_to_visualization_data`: the real extraction output, or the mock
dict (both are plain dicts in Python; neither carries a degraded tag). -/
inductive ConvertOutput
  | real (d : Dataset)
  | mock (m : MockDataset)
deriving DecidableEq

/-- Embedding of the module-level `_convert_to_visualization_data`
(lines 75-88): `extracted` is `some d` when the `try` block builds the
dataset and `none` when anything in it raises, in which case
`_get_mock_data()` supplies the result from the ambient world state. -/
def convert_to_visualization_data (extracted : Option Dataset) (w : World) :
    ConvertOutput :=
  match extracted with
  | some d => ConvertOutput.real d
  | none => ConvertOutput.mock (get_mock_data w)

/-! ### Definitions: concrete instances used by witnesses and
counterexamples -/

/-- A two-stroke engine output: an up stroke 100 → 105 followed by a down
stroke 105 → 98. -/
def demo_bi_list : List CBi :=
  [ { begin_klu_idx := 0, end_klu_idx := 5, begin_val := 100, end_val := 105,
      is_up := true, type := "笔", is_sure := true }
  , { begin_klu_idx := 5, end_klu_idx := 10, begin_val := 105, end_val := 98,
      is_up := false, type := "笔", is_sure := true } ]

/-- A one-segment engine output: a down segment 100 → 98. -/
def demo_seg_list : List CSeg :=
  [ { begin_klu_idx := 0, end_klu_idx := 10, begin_val := 100, end_val := 98,
      dir := -1, type := "线段", is_sure := true } ]

def demo_dates : List String := List.replicate 15 "2026-10-12"

/-- A run whose `random.uniform` calls all return 0. -/
def demo_world_zero : World := { dates := demo_dates, uniform := fun _ => 0 }

/-- A run whose `random.uniform` calls all return 1. -/
def demo_world_one : World := { dates := demo_dates, uniform := fun _ => 1 }

/-! ### Lemmas about the index mapper -/

lemma buildAux_length (c : Nat) (sizes : List Nat) :
    (buildAux c sizes).length = sizes.length := by
  induction sizes generalizing c with
  | nil => rfl
  | cons n rest ih => simp [buildAux, ih]

lemma buildAux_countP (i : Int) (sizes : List Nat) (c : Nat)
    (hpos : ∀ n ∈ sizes, 0 < n) :
    (buildAux c sizes).countP (inRange i) =
      if (c : Int) ≤ i ∧ i < (c : Int) + sizes.sum then 1 else 0 := by
  induction sizes generalizing c with
  | nil =>
      simp only [buildAux, List.countP_nil, List.sum_nil]
      split_ifs <;> omega
  | cons n rest ih =>
      have hn : 0 < n := hpos n (List.mem_cons_self n rest)
      have hrest : ∀ m ∈ rest, 0 < m := fun m hm => hpos m (List.mem_cons_of_mem n hm)
      rw [buildAux, List.countP_cons, ih (c + n) hrest]
      simp only [inRange, List.sum_cons, decide_eq_true_eq]
      split_ifs <;> omega

lemma buildAux_head_start (c : Nat) (sizes : List Nat) :
    ∀ r ∈ (buildAux c sizes).head?, r.1 = (c : Int) := by
  cases sizes <;> simp [buildAux]

lemma buildAux_chain (sizes : List Nat) (c : Nat) (hpos : ∀ n ∈ sizes, 0 < n) :
    List.Chain' (fun a b : Int × Int => a.2 + 1 = b.1 ∧ a.1 < b.1) (buildAux c sizes) := by
  induction sizes generalizing c with
  | nil => simp [buildAux]
  | cons n rest ih =>
      have hn : 0 < n := hpos n (List.mem_cons_self n rest)
      have hrest : ∀ m ∈ rest, 0 < m := fun m hm => hpos m (List.mem_cons_of_mem n hm)
      rw [buildAux]
      refine List.chain'_cons'.mpr ⟨?_, ih (c + n) hrest⟩
      intro b hb
      have h1 := buildAux_head_start (c + n) rest b hb
      rw [h1]
      constructor <;> [skip; skip] <;> push_cast <;> omega

lemma buildAux_ranges_nonempty (sizes : List Nat) (c : Nat)
    (hpos : ∀ n ∈ sizes, 0 < n) :
    ∀ r ∈ buildAux c sizes, r.1 ≤ r.2 := by
  induction sizes generalizing c with
  | nil => simp [buildAux]
  | cons n rest ih =>
      have hn : 0 < n := hpos n (List.mem_cons_self n rest)
      have hrest : ∀ m ∈ rest, 0 < m := fun m hm => hpos m (List.mem_cons_of_mem n hm)
      intro r hr
      rw [buildAux, List.mem_cons] at hr
      rcases hr with hr | hr
      · subst hr; simp only; omega
      · exact ih (c + n) hrest r hr

lemma buildAux_getD (sizes : List Nat) (c k : Nat) (hk : k < sizes.length) :
    (buildAux c sizes).getD k (0, 0) =
      (((c + (sizes.take k).sum : Nat) : Int),
       ((c + (sizes.take k).sum : Nat) : Int) + (sizes.getD k 0 : Int) - 1) := by
  induction sizes generalizing c k with
  | nil => simp at hk
  | cons n rest ih =>
      cases k with
      | zero => simp [buildAux]
      | succ k =>
          have hk2 : k < rest.length := by simpa using hk
          rw [buildAux]
          simp only [List.getD_cons_succ, List.take_succ_cons, List.sum_cons]
          rw [ih (c + n) k hk2, Prod.mk.injEq]
          constructor <;> push_cast <;> ring

/-! ### Claim theorems -/

/-- Claim C1: for every ordered sequence of non-empty aggregates, the index
mapper returns ranges that partition `[0, totalRawUnits)` with no gaps or
overlaps (every index in the interval lies in exactly one range and every
index outside it lies in none), the ranges are non-empty and in ascending
order of aggregate ordinal and of index (each range starts right after the
previous one ends), and on aggregate sizes `[2, 3, 1]` the mapper yields
ranges `[0,1], [2,4], [5,5]` with a total raw-unit count of 6. -/
theorem klu_index_mapping_partitions (sizes : List Nat)
    (hpos : ∀ n ∈ sizes, 0 < n) :
    (∀ i : Int, (build_klu_index_mapping sizes).countP (inRange i) =
        if 0 ≤ i ∧ i < (totalRawUnits sizes : Int) then 1 else 0) ∧
    (∀ r ∈ build_klu_index_mapping sizes, r.1 ≤ r.2) ∧
    List.Chain' (fun a b : Int × Int => a.2 + 1 = b.1 ∧ a.1 < b.1)
      (build_klu_index_mapping sizes) ∧
    build_klu_index_mapping [2, 3, 1] = [(0, 1), (2, 4), (5, 5)] ∧
    totalRawUnits [2, 3, 1] = 6 := by
  refine ⟨?_, buildAux_ranges_nonempty sizes 0 hpos, buildAux_chain sizes 0 hpos,
    by decide, rfl⟩
  intro i
  have h := buildAux_countP i sizes 0 hpos
  simpa [build_klu_index_mapping, totalRawUnits] using h

/-- Witness for C1 at the concrete model with aggregate sizes `[2, 3, 1]`. -/
theorem klu_index_mapping_partitions_witness :
    build_klu_index_mapping [2, 3, 1] = [(0, 1), (2, 4), (5, 5)] ∧
    totalRawUnits [2, 3, 1] = 6 :=
  ⟨(klu_index_mapping_partitions [2, 3, 1] (by decide)).2.2.2.1,
   (klu_index_mapping_partitions [2, 3, 1] (by decide)).2.2.2.2⟩

/-- Claim C5 counterexample: on the aggregate sizes `[2, 0, 1]`, which
contain an empty aggregate, `_build_klu_index_mapping` raises no error and
produces a complete three-entry mapping, giving the empty aggregate the
degenerate range `(2, 1)`; so the mapper does produce a mapping for a
sequence with an empty aggregate, contrary to the claim. -/
theorem build_klu_mapping_accepts_empty_aggregate :
    build_klu_index_mapping [2, 0, 1] = [(0, 1), (2, 1), (2, 2)] ∧
    (build_klu_index_mapping [2, 0, 1]).length = 3 := by decide

/-- Claim C5 amended: the index mapper performs no emptiness check and never
fails; it emits one range per aggregate, and an empty aggregate at ordinal
`k` receives the degenerate range `(cursor, cursor - 1)` where `cursor` is
the number of raw units preceding it. -/
theorem build_klu_mapping_empty_aggregate_degenerate (sizes : List Nat)
    (k : Nat) (hk : k < sizes.length) (h0 : sizes.getD k 0 = 0) :
    (build_klu_index_mapping sizes).length = sizes.length ∧
    (build_klu_index_mapping sizes).getD k (0, 0) =
      (((sizes.take k).sum : Int), ((sizes.take k).sum : Int) - 1) := by
  refine ⟨buildAux_length 0 sizes, ?_⟩
  have h := buildAux_getD sizes 0 k hk
  rw [build_klu_index_mapping, h, h0, Prod.mk.injEq]
  constructor <;> push_cast <;> ring

/-- Witness for the amended C5 at sizes `[2, 0, 1]`, empty aggregate at
ordinal 1. -/
theorem build_klu_mapping_empty_aggregate_witness :
    (build_klu_index_mapping [2, 0, 1]).length = [2, 0, 1].length ∧
    (build_klu_index_mapping [2, 0, 1]).getD 1 (0, 0) =
      ((([2, 0, 1].take 1).sum : Int), (([2, 0, 1].take 1).sum : Int) - 1) :=
  build_klu_mapping_empty_aggregate_degenerate [2, 0, 1] 1 (by decide) (by decide)

/-- Claim C2: for every extracted stroke and segment whose upstream objects
satisfy the engine contract (the stroke flag `is_up()` holds exactly when
the end price exceeds the begin price, a segment has `dir = 1` exactly when
its end price exceeds its begin price, and consecutive strokes carry
alternating flags), the output `direction` field is `"up"` if and only if
the output end price is strictly greater than the output start price, and
consecutive extracted strokes have differing `direction` fields. -/
theorem stroke_segment_direction_consistency
    (bi_list : List CBi) (seg_list : List CSeg) (m1 m2 : List (Int × Int))
    (hbi : ∀ bi ∈ bi_list, bi.is_up = true ↔ bi.begin_val < bi.end_val)
    (halt : List.Chain' (fun a b : CBi => a.is_up ≠ b.is_up) bi_list)
    (hseg : ∀ s ∈ seg_list, s.dir = 1 ↔ s.begin_val < s.end_val) :
    (∀ r ∈ extract_bi_data bi_list m1, (r.direction = "up" ↔ r.y.1 < r.y.2)) ∧
    (∀ r ∈ extract_segment_data seg_list m2, (r.direction = "up" ↔ r.y.1 < r.y.2)) ∧
    List.Chain' (fun a b : BiRec => a.direction ≠ b.direction)
      (extract_bi_data bi_list m1) := by
  refine ⟨?_, ?_, ?_⟩
  · intro r hr
    rw [extract_bi_data, List.mem_map] at hr
    obtain ⟨bi, hmem, rfl⟩ := hr
    have h := hbi bi hmem
    show (if bi.is_up then "up" else "down") = "up" ↔ bi.begin_val < bi.end_val
    cases hup : bi.is_up
    · constructor
      · intro hcontr
        exact absurd hcontr (by decide)
      · intro hlt
        have h2 := h.mpr hlt
        rw [hup] at h2
        exact absurd h2 (by decide)
    · exact ⟨fun _ => h.mp hup, fun _ => rfl⟩
  · intro r hr
    rw [extract_segment_data, List.mem_map] at hr
    obtain ⟨seg, hmem, rfl⟩ := hr
    have h := hseg seg hmem
    show (if seg.dir = (1 : Int) then "up" else "down") = "up" ↔
      seg.begin_val < seg.end_val
    by_cases hd : seg.dir = (1 : Int)
    · rw [if_pos hd]
      exact ⟨fun _ => h.mp hd, fun _ => rfl⟩
    · rw [if_neg hd]
      constructor
      · intro hcontr
        exact absurd hcontr (by decide)
      · intro hlt
        exact absurd (h.mpr hlt) hd
  · rw [extract_bi_data, List.chain'_map]
    refine List.Chain'.imp ?_ halt
    intro a b hab
    show (if a.is_up then "up" else "down") ≠ (if b.is_up then "up" else "down")
    cases ha : a.is_up <;> cases hb : b.is_up
    · exact absurd (ha.trans hb.symm) hab
    · decide
    · decide
    · exact absurd (ha.trans hb.symm) hab

/-- Witness for C2 at the two-stroke, one-segment demo model. -/
theorem stroke_segment_direction_consistency_witness :
    List.Chain' (fun a b : BiRec => a.direction ≠ b.direction)
      (extract_bi_data demo_bi_list []) :=
  (stroke_segment_direction_consistency demo_bi_list demo_seg_list [] []
    (by decide) (by simp [demo_bi_list]) (by decide)).2.2

/-- Claim C3 counterexample: the zone extractor performs no bounds check.
On a model with three aggregates of sizes `[2, 3, 1]` (so 6 raw units), a
zone whose begin/end indices are 999 and 1000 is extracted without any
failure and its out-of-range indices appear unchanged in the output, even
though 999 does not lie in `[0, totalRawUnits)`. -/
theorem extract_zs_no_bounds_validation :
    extract_zs_data
        [ { begin_idx := 999, end_idx := 1000, low := 98, high := 102,
            type := "中枢", is_sure := true } ]
        (build_klu_index_mapping [2, 3, 1]) =
      [ { x := (999, 1000), y := (98, 102), type := "中枢", is_sure := true } ] ∧
    ¬ ((999 : Int) < (totalRawUnits [2, 3, 1] : Int)) := by
  constructor
  · rfl
  · decide

/-- Claim C3 amended: the zone extractor validates nothing and never fails:
it ignores the index mapping entirely (the output is the same for any two
mappings) and copies each zone's begin/end indices and low/high prices into
the output unchanged, whether or not they lie within `[0, totalRawUnits)`. -/
theorem extract_zs_passthrough (zs_list : List CZs) (m1 m2 : List (Int × Int)) :
    extract_zs_data zs_list m1 = extract_zs_data zs_list m2 ∧
    (extract_zs_data zs_list m1).length = zs_list.length ∧
    ∀ r ∈ extract_zs_data zs_list m1, ∃ zs ∈ zs_list,
      r.x = (zs.begin_idx, zs.end_idx) ∧ r.y = (zs.low, zs.high) := by
  refine ⟨rfl, by simp [extract_zs_data], ?_⟩
  intro r hr
  rw [extract_zs_data, List.mem_map] at hr
  obtain ⟨zs, hmem, rfl⟩ := hr
  exact ⟨zs, hmem, rfl, rfl⟩

/-- Claim C4 counterexample: when the engine call inside
`StreamlitDataService.load_chan_data` raises (here with message "boom"),
the method does not return a fallback dataset: it raises a `RuntimeError`
wrapping the message, so the failure is propagated to the caller as an
error and no degraded-tagged dataset is produced. -/
theorem load_chan_data_engine_failure_raises :
    load_chan_data_fetch (Except.error "boom") =
      Except.error "无法获取股票数据，请检查股票代码和网络连接: boom" ∧
    (load_chan_data_fetch (Except.error "boom")).isOk = false :=
  ⟨rfl, rfl⟩

/-- Claim C4 amended: a failure of the upstream engine call inside
`StreamlitDataService.load_chan_data` is wrapped in a `RuntimeError` whose
message preserves the original error text and is propagated to the caller;
a successful call passes its dataset through unchanged.  No fallback
dataset (and hence no degraded tag) is produced on this path; only the
module-level conversion helper substitutes mock data, and it does so for
conversion failures after a successful engine call, without any tag. -/
theorem load_chan_data_propagates_engine_failure (e : String) (d : Dataset) :
    load_chan_data_fetch (Except.error e) =
      Except.error ("无法获取股票数据，请检查股票代码和网络连接: " ++ e) ∧
    load_chan_data_fetch (Except.ok d) = Except.ok d :=
  ⟨rfl, rfl⟩

/-- Claim C6: for every series and signal, the computed price offset is
5% of the spread between the maximum of the high column and the minimum of
the low column over the whole series, applied with negative sign for buy
signals and positive sign for sell signals. -/
theorem price_offset_formula (kline_low kline_high : List ℚ) (is_buy : Bool)
    (min_price max_price : ℚ)
    (hmin : kline_low.min? = some min_price)
    (hmax : kline_high.max? = some max_price) :
    calculate_price_offset kline_low kline_high is_buy =
      some ((if is_buy then (-1 : ℚ) else 1) * (5 / 100 * (max_price - min_price))) := by
  unfold calculate_price_offset
  rw [hmin, hmax]
  cases is_buy <;> simp <;> ring

/-- Witness for C6: a buy signal at price 50 over a series whose highs top
out at 60 and lows bottom out at 40 (spread 20) gets offset -1 and is
displayed at price 49. -/
theorem price_offset_formula_witness :
    calculate_price_offset [40, 45] [55, 60] true = some (-1) ∧
    bsp_display_price 50 (-1) = 49 := by
  constructor
  · have h := price_offset_formula [40, 45] [55, 60] true 40 60 (by decide) (by decide)
    rw [h]
    decide
  · decide

/-- Claim C7 counterexample: a request with both dates missing is not
rejected: `load_chan_data` silently substitutes the defaults (2023-01-01
and the current date) and proceeds, so a missing date does not raise
`ValueError`. -/
theorem missing_dates_not_rejected :
    load_chan_data_resolve "000001.SZ" "K_DAY" none none "2026-10-12" =
      Except.ok ("sz.000001", KL_TYPE.K_DAY, "2023-01-01", "2026-10-12") := rfl

/-- Claim C7 amended: `load_chan_data` fails fast with a `ValueError`
exactly when `code` or `level` is missing; missing start/end dates are not
errors and are silently replaced by the defaults 2023-01-01 and the current
date. -/
theorem params_validation (code level : String) (sd ed : Option String)
    (today : String) :
    ((code = "" ∨ level = "") →
        load_chan_data_resolve code level sd ed today = Except.error "参数缺失") ∧
    (¬ (code = "" ∨ level = "") →
        load_chan_data_resolve code level sd ed today =
          Except.ok (to_baostock code, level_mapping_get level,
            or_default sd "2023-01-01", or_default ed today)) := by
  constructor
  · intro h
    rw [load_chan_data_resolve, if_pos h]
  · intro h
    rw [load_chan_data_resolve, if_neg h]

/-- Witness for the amended C7: a missing code is rejected with the
`ValueError` message. -/
theorem params_validation_witness :
    load_chan_data_resolve "" "K_DAY" none none "2026-10-12" =
      Except.error "参数缺失" :=
  (params_validation "" "K_DAY" none none "2026-10-12").1 (Or.inl rfl)

/-- Claim C9: any non-empty level string outside the six known level codes
passes validation and is silently resolved to the daily level `K_DAY`
rather than rejected. -/
theorem unknown_level_defaults_to_daily (code level : String)
    (sd ed : Option String) (today : String)
    (hc : code ≠ "") (hl : level ≠ "") (hunknown : level ∉ known_levels) :
    level_mapping_get level = KL_TYPE.K_DAY ∧
    load_chan_data_resolve code level sd ed today =
      Except.ok (to_baostock code, KL_TYPE.K_DAY,
        or_default sd "2023-01-01", or_default ed today) := by
  simp only [known_levels, List.mem_cons, List.not_mem_nil, or_false, not_or]
    at hunknown
  obtain ⟨h1, h2, h3, h4, h5, h6⟩ := hunknown
  have hmap : level_mapping_get level = KL_TYPE.K_DAY := by
    rw [level_mapping_get, if_neg h1, if_neg h2, if_neg h3, if_neg h4,
      if_neg h5, if_neg h6]
  refine ⟨hmap, ?_⟩
  rw [load_chan_data_resolve, if_neg (by simp [hc, hl]), hmap]

/-- Witness for C9 at the unknown level string "K_WEEK". -/
theorem unknown_level_defaults_to_daily_witness :
    level_mapping_get "K_WEEK" = KL_TYPE.K_DAY ∧
    load_chan_data_resolve "000001.SZ" "K_WEEK" none none "2026-10-12" =
      Except.ok (to_baostock "000001.SZ", KL_TYPE.K_DAY,
        or_default none "2023-01-01", or_default none "2026-10-12") :=
  unknown_level_defaults_to_daily "000001.SZ" "K_WEEK" none none "2026-10-12"
    (by decide) (by decide) (by decide)

/-- Claim C8 counterexample: the fallback/mock path is not deterministic
across runs.  With the same (failing) input model and the same wall-clock
dates, two runs of the conversion pipeline whose `random.uniform` calls
return 0 and 1 respectively produce different output datasets, so the
output is not byte-identical between runs. -/
theorem mock_fallback_not_run_deterministic :
    convert_to_visualization_data none demo_world_zero ≠
      convert_to_visualization_data none demo_world_one := by decide

/-- Claim C8 amended: the successful extraction path is a pure projection
of the input model, so two runs on the same immutable model produce
identical output; only the mock fallback path reads the ambient world
(the unseeded random stream and the current time), so two runs that fall
back need not agree. -/
theorem real_extraction_run_deterministic (d : Dataset) (w1 w2 : World) :
    convert_to_visualization_data (some d) w1 =
      convert_to_visualization_data (some d) w2 := rfl

/-! ### Lemmas about the signal point loop -/

lemma bsp_loop_map_ok (good : List CBsp) :
    bsp_loop (good.map Except.ok) = good.map bsp_record := by
  induction good with
  | nil => rfl
  | cons b bs ih => simp [bsp_loop, ih]

lemma bsp_loop_stops_at_error (good : List CBsp) (bad : String)
    (rest : List (Except String CBsp)) :
    bsp_loop (good.map Except.ok ++ Except.error bad :: rest) =
      good.map bsp_record := by
  induction good with
  | nil => rfl
  | cons b bs ih => simp [bsp_loop, ih]

/-- Claim C10: the signal-point extractor never raises.  If resolving the
sorted list itself raises, it returns the empty list; if iteration raises
at some element, it returns exactly the records accumulated from the
elements before the failing one; and if nothing raises it returns one
record per signal.  In every case a plain list is returned rather than an
exception being propagated. -/
theorem bsp_extractor_never_raises (e bad : String) (good : List CBsp)
    (rest : List (Except String CBsp)) :
    extract_bsp_data (Except.error e) = [] ∧
    extract_bsp_data (Except.ok (good.map Except.ok ++ Except.error bad :: rest)) =
      good.map bsp_record ∧
    extract_bsp_data (Except.ok (good.map Except.ok)) = good.map bsp_record :=
  ⟨rfl, bsp_loop_stops_at_error good bad rest, bsp_loop_map_ok good⟩
